import Mathlib

/-!
# Verification of the ips-training-games transformation engines

Shallow embedding of the pure game logic of the repository
(`src/app/blind-grid/page.tsx`, `src/app/invisible-die/page.tsx`,
`src/app/voxel-carver/page.tsx` and the unnamed random-grid revision):
the configuration generators, command generators, per-domain
`applyCommand` transformation functions, the history-building run
driver inside `startGame`, and the voxel scorer `getResultStats`.

Conventions of the embedding:
* JavaScript numbers used as integer values and coordinates become `Int`
  (array indices that are provably in `0..2` become `Nat` where noted);
* `Math.random()` outcomes become an explicit stream `rng : Nat → ℚ`
  indexed by call order, with `Math.floor` as `Int.floor`;
* optional TS fields (`params?`, `targetIndex1?`) become `Option`;
* in-place mutation of a deep copy becomes construction of a new value
  (deep copies of immutable values are identities);
* the unbounded `while` resampling loop of the grid command generator
  is given explicit fuel and returns `none` when the fuel runs out.
-/

/-! ## Invisible die (`src/app/invisible-die/page.tsx`) -/

/-- Structure `DieState` from invisible-die: one integer per face. -/
structure DieState where
  top : Int
  bottom : Int
  front : Int
  back : Int
  left : Int
  right : Int
deriving DecidableEq, Repr

/-- The six die command kinds (`CommandType` of invisible-die). -/
inductive DieCommandType where
  | ROLL_FORWARD
  | ROLL_BACKWARD
  | ROLL_RIGHT
  | ROLL_LEFT
  | ROTATE_CW
  | ROTATE_CCW
deriving DecidableEq, Repr

/-- Constant `INITIAL_DIE` of invisible-die. -/
def INITIAL_DIE : DieState :=
  { top := 1, bottom := 6, front := 2, back := 5, right := 3, left := 4 }

/-- Function `applyDieCommand` of invisible-die: pure face permutation per command. -/
def applyDieCommand (current : DieState) (cmd : DieCommandType) : DieState :=
  match cmd with
  | .ROLL_FORWARD =>
      { current with
        front := current.top
        bottom := current.front
        back := current.bottom
        top := current.back }
  | .ROLL_BACKWARD =>
      { current with
        back := current.top
        bottom := current.back
        front := current.bottom
        top := current.front }
  | .ROLL_RIGHT =>
      { current with
        right := current.top
        bottom := current.right
        left := current.bottom
        top := current.left }
  | .ROLL_LEFT =>
      { current with
        left := current.top
        bottom := current.left
        right := current.bottom
        top := current.right }
  | .ROTATE_CW =>
      { current with
        right := current.front
        back := current.right
        left := current.back
        front := current.left }
  | .ROTATE_CCW =>
      { current with
        left := current.front
        back := current.left
        right := current.back
        front := current.right }

/-- The opposite-face invariant of the spec: the three opposite pairs sum to 7. -/
def oppositeFacesSumSeven (d : DieState) : Prop :=
  d.top + d.bottom = 7 ∧ d.front + d.back = 7 ∧ d.left + d.right = 7

instance (d : DieState) : Decidable (oppositeFacesSumSeven d) := by
  unfold oppositeFacesSumSeven; infer_instance

/-! ## Blind grid (`src/app/blind-grid/page.tsx`, first revision) -/

/-- Type `Grid = number[][]` of blind-grid. -/
abbrev Grid : Type := List (List Int)

/-- Grid command kinds (`CommandType` of blind-grid). -/
inductive GridCommandType where
  | ROTATE_CW
  | SWAP
  | SET_ROW
deriving DecidableEq, Repr

/-- Type `Command` of blind-grid: a kind, a description and optional parameters
(the TS `params?` object with optional numeric fields; the random UUID `id`
is omitted as it never influences the engine). Indices are `Nat` since the
generator produces `Math.floor(Math.random()*3) ∈ {0,1,2}`. -/
structure GridCommand where
  type : GridCommandType
  description : String
  r1 : Option Nat := none
  c1 : Option Nat := none
  r2 : Option Nat := none
  c2 : Option Nat := none
  row : Option Nat := none
  val : Option Int := none
deriving DecidableEq, Repr

instance : Inhabited GridCommand :=
  ⟨{ type := .ROTATE_CW, description := "Rotate 90 Clockwise" }⟩

/-- Read cell `grid[r][c]` (in-range everywhere it is used). -/
def getCell (g : Grid) (r c : Nat) : Int :=
  (g.getD r []).getD c 0

/-- Write cell `grid[r][c] := v` (out-of-range writes change nothing,
matching that they never occur in the source). -/
def setCell (g : Grid) (r c : Nat) (v : Int) : Grid :=
  g.set r ((g.getD r []).set c v)

/-- The `ROTATE_CW` branch of blind-grid `applyCommand`: builds `rotated`
with `rotated[c][N-1-r] = grid[r][c]` for `N = 3`, i.e.
`rotated[r'][c'] = grid[2-c'][r']`, written out cell by cell. -/
def rotateCW (g : Grid) : Grid :=
  [[getCell g 2 0, getCell g 1 0, getCell g 0 0],
   [getCell g 2 1, getCell g 1 1, getCell g 0 1],
   [getCell g 2 2, getCell g 1 2, getCell g 0 2]]

/-- The `SET_ROW` loop of blind-grid `applyCommand`, unrolled for `N = 3`. -/
def setRowCells (g : Grid) (row : Nat) (v : Int) : Grid :=
  setCell (setCell (setCell g row 0 v) row 1 v) row 2 v

/-- Function `applyCommand` of blind-grid: rotate, guarded swap, guarded set-row.
A `SWAP` or `SET_ROW` whose parameters fail the `typeof ... === 'number'`
guards returns the (copied) grid unchanged, as in the source. -/
def applyGridCommand (grid : Grid) (cmd : GridCommand) : Grid :=
  match cmd.type with
  | .ROTATE_CW => rotateCW grid
  | .SWAP =>
      match cmd.r1, cmd.c1, cmd.r2, cmd.c2 with
      | some r1, some c1, some r2, some c2 =>
          let temp := getCell grid r1 c1
          let g1 := setCell grid r1 c1 (getCell grid r2 c2)
          setCell g1 r2 c2 temp
      | _, _, _, _ => grid
  | .SET_ROW =>
      match cmd.row, cmd.val with
      | some row, some val => setRowCells grid row val
      | _, _ => grid

/-- A grid is well formed when it is 3×3 (`Grid` invariant of the spec). -/
def Grid.wellFormed (g : Grid) : Prop :=
  g.length = 3 ∧ ∀ r ∈ g, r.length = 3

instance (g : Grid) : Decidable (Grid.wellFormed g) := by
  unfold Grid.wellFormed; infer_instance

/-! ## Voxel carver (`src/app/voxel-carver/page.tsx`) -/

/-- Structure `Voxel` of voxel-carver: identity, value, coordinates, presence flag. -/
structure Voxel where
  id : Int
  val : Int
  x : Int
  y : Int
  z : Int
  active : Bool
deriving DecidableEq, Repr

instance : Inhabited Voxel :=
  ⟨{ id := 0, val := 0, x := 0, y := 0, z := 0, active := false }⟩

/-- Voxel command kinds (`CommandType` of voxel-carver). -/
inductive VoxelCommandType where
  | LASER_X
  | LASER_Y
  | LASER_Z
  | ROTATE_Y
deriving DecidableEq, Repr

/-- Type `Command` of voxel-carver (the random UUID `id` is omitted; the two
optional target indices model the TS optional fields). -/
structure VoxelCommand where
  type : VoxelCommandType
  description : String
  targetIndex1 : Option Int := none
  targetIndex2 : Option Int := none
deriving DecidableEq, Repr

/-- Function `createCube` of voxel-carver: 27 voxels in z-then-y-then-x scan order,
the mutable `counter` expressed in closed form `9*z + 3*y + x + 1`. -/
def createCube : List Voxel :=
  (List.range 3).flatMap fun z =>
    (List.range 3).flatMap fun y =>
      (List.range 3).map fun x =>
        { id := 9 * z + 3 * y + x + 1
          val := 9 * z + 3 * y + x + 1
          x := (x : Int), y := (y : Int), z := (z : Int)
          active := true }

/-- Function `applyCommand` of voxel-carver.  Lasers deactivate every voxel on the
targeted line (an `undefined` target matches no voxel, hence `Option`
equality).  `ROTATE_Y` skips non-active voxels (`if (!v.active) return;`)
and maps the rest by `x' = 2 - z`, `z' = x`. -/
def applyVoxelCommand (currentVoxels : List Voxel) (cmd : VoxelCommand) : List Voxel :=
  match cmd.type with
  | .LASER_Z =>
      currentVoxels.map fun v =>
        if cmd.targetIndex1 = some v.x ∧ cmd.targetIndex2 = some v.y then
          { v with active := false } else v
  | .LASER_X =>
      currentVoxels.map fun v =>
        if cmd.targetIndex1 = some v.y ∧ cmd.targetIndex2 = some v.z then
          { v with active := false } else v
  | .LASER_Y =>
      currentVoxels.map fun v =>
        if cmd.targetIndex1 = some v.x ∧ cmd.targetIndex2 = some v.z then
          { v with active := false } else v
  | .ROTATE_Y =>
      currentVoxels.map fun v =>
        if v.active then { v with x := 2 - v.z, z := v.x } else v

/-- Whether a laser command's targeted line passes through voxel `v`
(the hit conditions of the three laser branches of `applyCommand`);
`false` for `ROTATE_Y`. -/
def hitByLaser (cmd : VoxelCommand) (v : Voxel) : Prop :=
  match cmd.type with
  | .LASER_Z => cmd.targetIndex1 = some v.x ∧ cmd.targetIndex2 = some v.y
  | .LASER_X => cmd.targetIndex1 = some v.y ∧ cmd.targetIndex2 = some v.z
  | .LASER_Y => cmd.targetIndex1 = some v.x ∧ cmd.targetIndex2 = some v.z
  | .ROTATE_Y => False

instance (cmd : VoxelCommand) (v : Voxel) : Decidable (hitByLaser cmd v) := by
  unfold hitByLaser; cases cmd.type <;> infer_instance

/-! ## Voxel scorer (`getResultStats` of voxel-carver)

User inputs are a map from `"z-y-x"` string keys to strings
(`Record<string, string>`), modelled as `String → Option String`;
`userInputs[key] || ''` becomes `Option.getD "" ` (both the absent key
and the empty string collapse to `""`, exactly as `||` does). -/

/-- The `"z-y-x"` key built by `handleCellInput` and `getResultStats`. -/
def coordKey (z y x : Int) : String :=
  toString z ++ "-" ++ toString y ++ "-" ++ toString x

/-- One iteration of the scoring loop of `getResultStats`: find the voxel
at `(x, y, z)`, take its value string if present and active (else `''`),
and compare with the user's entry for that coordinate. -/
def cellScore (finalVoxels : List Voxel)
    (userInputs : String → Option String) (z y x : Int) : Bool :=
  let actualVoxel := finalVoxels.find? fun v => v.x == x && v.y == y && v.z == z
  let actualVal :=
    match actualVoxel with
    | some v => if v.active then toString v.val else ""
    | none => ""
  let userVal := (userInputs (coordKey z y x)).getD ""
  actualVal == userVal

/-- Function `getResultStats` of voxel-carver: count of correct cells over the 27
coordinates (loops `z`, `y`, `x` over `0..2`), total fixed at 27. -/
def getResultStats (finalVoxels : List Voxel)
    (userInputs : String → Option String) : Nat × Nat :=
  let coords := ([0, 1, 2] : List Int).flatMap fun z =>
    ([0, 1, 2] : List Int).flatMap fun y =>
      ([0, 1, 2] : List Int).map fun x => (z, y, x)
  (coords.countP (fun p => cellScore finalVoxels userInputs p.1 p.2.1 p.2.2), 27)

/-- Modelled from the spec: the spec's scoring comparison rule reads the
user entry "parsed as an integer" (`parseInt` is a JS builtin, not
repository code).  A non-empty string of decimal digits parses to its
value; other strings parse to `none`. -/
def specParsedInt (s : String) : Option Int :=
  if s.toList ≠ [] ∧ s.toList.all Char.isDigit then
    some (Int.ofNat (s.toList.foldl (fun n c => 10 * n + (c.toNat - 48)) 0))
  else none

/-! ## Run driver (`startGame` of blind-grid and of invisible-die)

Both `startGame` functions fold the command list over the state, pushing
a history record after every step behind a leading "start" record.  The
drivers below take the initial configuration as a parameter (the pages
pass `generateGrid()` resp. `{ ...INITIAL_DIE }` for it). -/

/-- Structure `HistoryStep` of blind-grid. -/
structure HistoryStep where
  stepIndex : Nat
  commandDescription : String
  gridState : Grid
deriving DecidableEq, Repr

instance : Inhabited HistoryStep :=
  ⟨{ stepIndex := 0, commandDescription := "", gridState := [] }⟩

/-- The `cmds.forEach` loop of blind-grid `startGame`: apply each command
in order and push a snapshot with `stepIndex = idx + 1`. -/
def startGameHistoryAux (s : Grid) : List GridCommand → Nat → List HistoryStep
  | [], _ => []
  | cmd :: rest, idx =>
      let s' := applyGridCommand s cmd
      { stepIndex := idx + 1, commandDescription := cmd.description, gridState := s' } ::
        startGameHistoryAux s' rest (idx + 1)

/-- The history built by blind-grid `startGame`: a leading start record
followed by one record per command. -/
def startGameHistory (initial : Grid) (cmds : List GridCommand) : List HistoryStep :=
  { stepIndex := 0, commandDescription := "Start Configuration (1-9)", gridState := initial } ::
    startGameHistoryAux initial cmds 0

/-- The final `currentGridState` of blind-grid `startGame` (what is stored
in `expectedGrid`): the left fold of `applyCommand` over the commands. -/
def startGameFinal (initial : Grid) (cmds : List GridCommand) : Grid :=
  cmds.foldl applyGridCommand initial

/-- Type `Command` of invisible-die (`id` UUID omitted). -/
structure DieCommand where
  type : DieCommandType
  description : String
deriving DecidableEq, Repr

instance : Inhabited DieCommand := ⟨{ type := .ROLL_FORWARD, description := "Roll Forward" }⟩

/-- Structure `HistoryStep` of invisible-die. -/
structure DieHistoryStep where
  stepIndex : Nat
  commandDescription : String
  resultState : DieState
deriving DecidableEq, Repr

instance : Inhabited DieHistoryStep :=
  ⟨{ stepIndex := 0, commandDescription := "", resultState := INITIAL_DIE }⟩

/-- The `cmds.forEach` loop of invisible-die `startGame`. -/
def dieStartGameHistoryAux (s : DieState) : List DieCommand → Nat → List DieHistoryStep
  | [], _ => []
  | cmd :: rest, idx =>
      let s' := applyDieCommand s cmd.type
      { stepIndex := idx + 1, commandDescription := cmd.description, resultState := s' } ::
        dieStartGameHistoryAux s' rest (idx + 1)

/-- The history built by invisible-die `startGame`. -/
def dieStartGameHistory (initial : DieState) (cmds : List DieCommand) : List DieHistoryStep :=
  { stepIndex := 0, commandDescription := "Initial Position", resultState := initial } ::
    dieStartGameHistoryAux initial cmds 0

/-- The final `currentState` of invisible-die `startGame` (stored in
`finalState`). -/
def dieStartGameFinal (initial : DieState) (cmds : List DieCommand) : DieState :=
  cmds.foldl (fun s c => applyDieCommand s c.type) initial

/-! ## Random-grid configuration generator
(`generateGrid` of `src/unnamed/part_000` and of the second blind-grid
revision): a 3×3 grid of nine independent draws
`Math.floor(Math.random() * 9) + 1`, in row-major call order. -/

/-- Function `generateGrid` of the random-grid revisions, over an explicit stream
of `Math.random()` outcomes. -/
def generateGrid (rng : Nat → ℚ) : Grid :=
  [[⌊rng 0 * 9⌋ + 1, ⌊rng 1 * 9⌋ + 1, ⌊rng 2 * 9⌋ + 1],
   [⌊rng 3 * 9⌋ + 1, ⌊rng 4 * 9⌋ + 1, ⌊rng 5 * 9⌋ + 1],
   [⌊rng 6 * 9⌋ + 1, ⌊rng 7 * 9⌋ + 1, ⌊rng 8 * 9⌋ + 1]]

/-! ## Grid command generator
(`generateRandomCommands` of the first blind-grid revision): per
iteration one `Math.random()` draw selects the kind with weights
`< 0.5` rotate, `< 0.8` swap, else set-row; a swap draws `r1, c1, r2, c2`
and resamples `r2` while `(r1, c1) = (r2, c2)`. -/

/-- The `while (r1 === r2 && c1 === c2)` resampling loop of the swap
branch, with fuel (the JS loop is unbounded); returns the final `r2`
together with the index of the next unconsumed `Math.random()` call, or
`none` when the fuel is exhausted. -/
def resampleR2 (rng : Nat → ℚ) (r1 c1 c2 : Int) : Nat → Int → Nat → Option (Int × Nat)
  | 0, r2, k => if r1 = r2 ∧ c1 = c2 then none else some (r2, k)
  | fuel + 1, r2, k =>
      if r1 = r2 ∧ c1 = c2 then resampleR2 rng r1 c1 c2 fuel ⌊rng k * 3⌋ (k + 1)
      else some (r2, k)

/-- Function `generateRandomCommands` of the first blind-grid revision, over an
explicit `Math.random()` outcome stream (`k` is the index of the next
draw; `0.8` is modelled as the exact rational `4/5`).  Produces `none`
only when the resampling fuel runs out. -/
def generateRandomCommands (rng : Nat → ℚ) (fuel : Nat) :
    Nat → Nat → Option (List GridCommand)
  | 0, _ => some []
  | n + 1, k =>
      let rand := rng k
      if rand < 1 / 2 then
        (generateRandomCommands rng fuel n (k + 1)).map fun rest =>
          { type := .ROTATE_CW, description := "Rotate 90° Clockwise" } :: rest
      else if rand < 4 / 5 then
        let r1 := ⌊rng (k + 1) * 3⌋
        let c1 := ⌊rng (k + 2) * 3⌋
        let r2 := ⌊rng (k + 3) * 3⌋
        let c2 := ⌊rng (k + 4) * 3⌋
        match resampleR2 rng r1 c1 c2 fuel r2 (k + 5) with
        | none => none
        | some (r2f, k2) =>
            (generateRandomCommands rng fuel n k2).map fun rest =>
              { type := .SWAP
                description := "Swap (" ++ toString r1 ++ "," ++ toString c1 ++
                  ") with (" ++ toString r2f ++ "," ++ toString c2 ++ ")"
                r1 := some r1.toNat, c1 := some c1.toNat
                r2 := some r2f.toNat, c2 := some c2.toNat } :: rest
      else
        let rowIdx := ⌊rng (k + 1) * 3⌋
        (generateRandomCommands rng fuel n (k + 2)).map fun rest =>
          { type := .SET_ROW
            description := "Set Row " ++ toString (rowIdx + 1) ++ " to all Zeros"
            row := some rowIdx.toNat, val := some 0 } :: rest

/-! ## Theorems -/

/-- A `SWAP` command whose `params` object is absent entirely. -/
def swapNoParams : GridCommand := { type := .SWAP, description := "Swap" }

/-- The `ROTATE_Y` command used by the voxel generator. -/
def rotateYCommand : VoxelCommand :=
  { type := .ROTATE_Y, description := "Rotate Cube 90° Clockwise" }

/-- A single destroyed voxel at the origin. -/
def inactiveOriginVoxel : Voxel :=
  { id := 1, val := 1, x := 0, y := 0, z := 0, active := false }

/-- A concrete laser command: fire front-to-back at column 1, row 1. -/
def laserZ00 : VoxelCommand :=
  { type := .LASER_Z, description := "Fire Laser Front-to-Back at Col 1, Row 1"
    targetIndex1 := some 0, targetIndex2 := some 0 }

/-- A user answer sheet whose only entry is `"01"` at coordinate `(0,0,0)`. -/
def userInput01 : String → Option String :=
  fun k => if k = "0-0-0" then some "01" else none

/-- The successive grid states produced by the `startGame` fold, one per
command. -/
def gridStates (s : Grid) : List GridCommand → List Grid
  | [] => []
  | c :: cs => applyGridCommand s c :: gridStates (applyGridCommand s c) cs

instance : Inhabited DieState := ⟨INITIAL_DIE⟩

/-- The successive die states produced by the `startGame` fold. -/
def dieStates (s : DieState) : List DieCommand → List DieState
  | [] => []
  | c :: cs => applyDieCommand s c.type :: dieStates (applyDieCommand s c.type) cs

/-- A concrete `Math.random()` outcome stream: the first draw selects the
swap branch, the fourth makes `r2 = 1` so no resampling is needed. -/
def rngSwapExample : Nat → ℚ :=
  fun i => if i = 0 then 3 / 5 else if i = 3 then 1 / 2 else 0

/-- The swap command generated from `rngSwapExample`. -/
def swapCmd01 : GridCommand :=
  { type := .SWAP
    description := "Swap (" ++ toString (0 : Int) ++ "," ++ toString (0 : Int) ++
      ") with (" ++ toString (1 : Int) ++ "," ++ toString (0 : Int) ++ ")"
    r1 := some 0, c1 := some 0, r2 := some 1, c2 := some 0 }

/-- C7: for every die state `s`, rolling forward and then rolling backward
restores `s` exactly (`ROLL_BACKWARD` is the inverse of `ROLL_FORWARD`). -/
theorem dieRollForward_rollBackward_roundTrip (s : DieState) :
    applyDieCommand (applyDieCommand s .ROLL_FORWARD) .ROLL_BACKWARD = s := rfl

/-- C6: every one of the six die commands preserves the invariant that the
three opposite-face pairs (top/bottom, front/back, left/right) each sum
to 7: the commands only permute which values sit on which faces. -/
theorem dieCommand_preserves_oppositeFacesSumSeven
    (d : DieState) (cmd : DieCommandType) (h : oppositeFacesSumSeven d) :
    oppositeFacesSumSeven (applyDieCommand d cmd) := by
  obtain ⟨h1, h2, h3⟩ := h
  cases cmd <;>
    simp only [applyDieCommand, oppositeFacesSumSeven] <;>
    refine ⟨by omega, by omega, by omega⟩

/-- Witness for C6 at the canonical initial die and `ROLL_FORWARD`. -/
theorem dieCommand_preserves_oppositeFacesSumSeven_witness :
    oppositeFacesSumSeven INITIAL_DIE ∧
      oppositeFacesSumSeven (applyDieCommand INITIAL_DIE .ROLL_FORWARD) :=
  ⟨by decide,
   dieCommand_preserves_oppositeFacesSumSeven INITIAL_DIE .ROLL_FORWARD (by decide)⟩

/-- C8: applying a `ROTATE_CW` command four times to any 3×3 grid returns
the original grid (the clockwise quarter-turn has order 4). -/
theorem gridRotateCW_four_times_identity (g : Grid) (cmd : GridCommand)
    (hc : cmd.type = .ROTATE_CW) (hg : Grid.wellFormed g) :
    applyGridCommand (applyGridCommand (applyGridCommand (applyGridCommand g cmd) cmd) cmd) cmd
      = g := by
  obtain ⟨hlen, hrows⟩ := hg
  rw [List.length_eq_three] at hlen
  obtain ⟨r0, r1, r2, rfl⟩ := hlen
  have h0 := hrows r0 (by simp)
  have h1 := hrows r1 (by simp)
  have h2 := hrows r2 (by simp)
  rw [List.length_eq_three] at h0 h1 h2
  obtain ⟨a0, a1, a2, rfl⟩ := h0
  obtain ⟨b0, b1, b2, rfl⟩ := h1
  obtain ⟨c0, c1, c2, rfl⟩ := h2
  simp [applyGridCommand, hc, rotateCW, getCell]

/-- Witness for C8 at the standard 1-9 grid. -/
theorem gridRotateCW_four_times_identity_witness :
    Grid.wellFormed [[1, 2, 3], [4, 5, 6], [7, 8, 9]] ∧
      applyGridCommand (applyGridCommand (applyGridCommand (applyGridCommand
        [[1, 2, 3], [4, 5, 6], [7, 8, 9]]
          { type := .ROTATE_CW, description := "Rotate 90° Clockwise" })
          { type := .ROTATE_CW, description := "Rotate 90° Clockwise" })
          { type := .ROTATE_CW, description := "Rotate 90° Clockwise" })
          { type := .ROTATE_CW, description := "Rotate 90° Clockwise" }
        = [[1, 2, 3], [4, 5, 6], [7, 8, 9]] :=
  ⟨by decide,
   gridRotateCW_four_times_identity [[1, 2, 3], [4, 5, 6], [7, 8, 9]]
     { type := .ROTATE_CW, description := "Rotate 90° Clockwise" } rfl (by decide)⟩

/-- C5 counterexample: applying a `SWAP` command with missing parameters
does not signal any error — `applyCommand` silently returns the grid
unchanged. -/
theorem gridApply_missingParams_silently_unchanged_cex :
    swapNoParams.type = .SWAP ∧ swapNoParams.r1 = none ∧ swapNoParams.c1 = none ∧
      swapNoParams.r2 = none ∧ swapNoParams.c2 = none ∧
      applyGridCommand [[1, 2, 3], [4, 5, 6], [7, 8, 9]] swapNoParams
        = [[1, 2, 3], [4, 5, 6], [7, 8, 9]] :=
  ⟨rfl, rfl, rfl, rfl, rfl, rfl⟩

/-- C5 amended: for every grid, a `SWAP` command missing any of its four
indices, or a `SET_ROW` command missing its row or value, is a silent
no-op — `applyCommand` returns the grid unchanged and signals nothing. -/
theorem gridApply_missingParams_noop (g : Grid) (cmd : GridCommand)
    (h : (cmd.type = .SWAP ∧
            (cmd.r1 = none ∨ cmd.c1 = none ∨ cmd.r2 = none ∨ cmd.c2 = none)) ∨
         (cmd.type = .SET_ROW ∧ (cmd.row = none ∨ cmd.val = none))) :
    applyGridCommand g cmd = g := by
  rcases h with ⟨ht, hp⟩ | ⟨ht, hp⟩
  · cases hr1 : cmd.r1 <;> cases hc1 : cmd.c1 <;> cases hr2 : cmd.r2 <;> cases hc2 : cmd.c2 <;>
      simp_all [applyGridCommand]
  · cases hrow : cmd.row <;> cases hval : cmd.val <;> simp_all [applyGridCommand]

/-- Witness for the amended C5 at the standard grid and a parameterless
`SET_ROW` command. -/
theorem gridApply_missingParams_noop_witness :
    (({ type := .SET_ROW, description := "Set Row" } : GridCommand).type = GridCommandType.SET_ROW ∧
        (({ type := .SET_ROW, description := "Set Row" } : GridCommand).row = none ∨
          ({ type := .SET_ROW, description := "Set Row" } : GridCommand).val = none)) ∧
      applyGridCommand [[1, 2, 3], [4, 5, 6], [7, 8, 9]]
          { type := .SET_ROW, description := "Set Row" }
        = [[1, 2, 3], [4, 5, 6], [7, 8, 9]] :=
  ⟨⟨rfl, Or.inl rfl⟩,
   gridApply_missingParams_noop [[1, 2, 3], [4, 5, 6], [7, 8, 9]]
     { type := .SET_ROW, description := "Set Row" } (Or.inr ⟨rfl, Or.inl rfl⟩)⟩

/-- Reading with `getD` after a `map`, at an in-range index. -/
theorem getD_map_of_lt {α β : Type} (f : α → β) (l : List α) (i : Nat)
    (h : i < l.length) (d : β) (e : α) :
    (l.map f).getD i d = f (l.getD i e) := by
  induction l generalizing i with
  | nil => simp at h
  | cons a t ih =>
      cases i with
      | zero => rfl
      | succ j => simpa using ih j (by simpa using h)

/-- C3 counterexample: rotating a cube whose only voxel at `(0,0,0)` is
destroyed leaves its coordinates at `(0,0,0)`, whereas the claimed
uniform rule `(x,y,z) ↦ (2-z,y,x)` would move it to `(2,0,0)` — the code
skips non-present voxels instead of transforming them. -/
theorem voxelRotate_skips_inactive_cex :
    applyVoxelCommand [inactiveOriginVoxel] rotateYCommand = [inactiveOriginVoxel] ∧
      inactiveOriginVoxel.active = false ∧
      (2 - inactiveOriginVoxel.z, inactiveOriginVoxel.y, inactiveOriginVoxel.x) = (2, 0, 0) ∧
      applyVoxelCommand [inactiveOriginVoxel] rotateYCommand
        ≠ [{ id := 1, val := 1, x := 2, y := 0, z := 0, active := false }] := by
  refine ⟨by decide, rfl, rfl, by decide⟩

/-- C3 amended: `ROTATE_Y` maps every *present* voxel from `(x,y,z)` to
`(2-z,y,x)` keeping `id`, `val` and `active`, but leaves every destroyed
(`active = false`) voxel entirely unchanged, coordinates included. -/
theorem voxelRotate_transforms_active_leaves_inactive
    (vs : List Voxel) (cmd : VoxelCommand) (hc : cmd.type = .ROTATE_Y)
    (i : Nat) (hi : i < vs.length) :
    ((vs.getD i default).active = true →
        (applyVoxelCommand vs cmd).getD i default =
          { vs.getD i default with
              x := 2 - (vs.getD i default).z, z := (vs.getD i default).x }) ∧
    ((vs.getD i default).active = false →
        (applyVoxelCommand vs cmd).getD i default = vs.getD i default) := by
  have hmap : applyVoxelCommand vs cmd =
      vs.map fun v => if v.active then { v with x := 2 - v.z, z := v.x } else v := by
    unfold applyVoxelCommand
    rw [hc]
  rw [hmap, getD_map_of_lt _ vs i hi default default]
  constructor <;> intro ha
  · rw [if_pos ha]
  · rw [if_neg (by rw [ha]; exact Bool.false_ne_true)]

/-- Witness for the amended C3: one present voxel at `(1,0,0)` moves to
`(2,0,1)` under `ROTATE_Y`. -/
theorem voxelRotate_transforms_active_leaves_inactive_witness :
    rotateYCommand.type = VoxelCommandType.ROTATE_Y ∧
      0 < ([{ id := 2, val := 2, x := 1, y := 0, z := 0, active := true }] : List Voxel).length ∧
      (([{ id := 2, val := 2, x := 1, y := 0, z := 0, active := true }] : List Voxel).getD 0
          default).active = true ∧
      (applyVoxelCommand [{ id := 2, val := 2, x := 1, y := 0, z := 0, active := true }]
          rotateYCommand).getD 0 default =
        { id := 2, val := 2, x := 2, y := 0, z := 1, active := true } :=
  ⟨rfl, by decide, by decide,
   (voxelRotate_transforms_active_leaves_inactive
      [{ id := 2, val := 2, x := 1, y := 0, z := 0, active := true }]
      rotateYCommand rfl 0 (by decide)).1 (by decide)⟩

/-- Effect of a conditional-deactivation pass on the voxel at index `i`:
only the `active` flag can change, and only from `true` to `false`, and
only when the condition holds. -/
theorem ite_deactivate_getD (p : Voxel → Prop) [DecidablePred p]
    (vs : List Voxel) (i : Nat) (hi : i < vs.length) :
    ((vs.map fun v => if p v then { v with active := false } else v).getD i default).id
        = (vs.getD i default).id ∧
    ((vs.map fun v => if p v then { v with active := false } else v).getD i default).val
        = (vs.getD i default).val ∧
    ((vs.map fun v => if p v then { v with active := false } else v).getD i default).x
        = (vs.getD i default).x ∧
    ((vs.map fun v => if p v then { v with active := false } else v).getD i default).y
        = (vs.getD i default).y ∧
    ((vs.map fun v => if p v then { v with active := false } else v).getD i default).z
        = (vs.getD i default).z ∧
    (((vs.map fun v => if p v then { v with active := false } else v).getD i default).active = true
        → (vs.getD i default).active = true) ∧
    (p (vs.getD i default) →
        ((vs.map fun v => if p v then { v with active := false } else v).getD i default).active
          = false) ∧
    (¬ p (vs.getD i default) →
        (vs.map fun v => if p v then { v with active := false } else v).getD i default
          = vs.getD i default) := by
  rw [getD_map_of_lt _ vs i hi default default]
  by_cases hp : p (vs.getD i default)
  · rw [if_pos hp]
    exact ⟨rfl, rfl, rfl, rfl, rfl, fun h => Bool.noConfusion h, fun _ => rfl,
      fun hn => absurd hp hn⟩
  · rw [if_neg hp]
    exact ⟨rfl, rfl, rfl, rfl, rfl, fun h => h, fun hcontra => absurd hcontra hp,
      fun _ => rfl⟩

/-- C10: a laser command (`LASER_X`, `LASER_Y` or `LASER_Z`) never changes
any voxel's `id`, `val`, `x`, `y` or `z`, never reactivates a voxel; it
sets `active := false` exactly on the voxels of the targeted line and
leaves every off-line voxel entirely unchanged. -/
theorem voxelLaser_only_deactivates_targeted_line
    (vs : List Voxel) (cmd : VoxelCommand)
    (hc : cmd.type = .LASER_X ∨ cmd.type = .LASER_Y ∨ cmd.type = .LASER_Z)
    (i : Nat) (hi : i < vs.length) :
    ((applyVoxelCommand vs cmd).getD i default).id = (vs.getD i default).id ∧
    ((applyVoxelCommand vs cmd).getD i default).val = (vs.getD i default).val ∧
    ((applyVoxelCommand vs cmd).getD i default).x = (vs.getD i default).x ∧
    ((applyVoxelCommand vs cmd).getD i default).y = (vs.getD i default).y ∧
    ((applyVoxelCommand vs cmd).getD i default).z = (vs.getD i default).z ∧
    (((applyVoxelCommand vs cmd).getD i default).active = true →
        (vs.getD i default).active = true) ∧
    (hitByLaser cmd (vs.getD i default) →
        ((applyVoxelCommand vs cmd).getD i default).active = false) ∧
    (¬ hitByLaser cmd (vs.getD i default) →
        (applyVoxelCommand vs cmd).getD i default = vs.getD i default) := by
  rcases hc with h | h | h
  · have hmap : applyVoxelCommand vs cmd = vs.map fun v =>
        if cmd.targetIndex1 = some v.y ∧ cmd.targetIndex2 = some v.z then
          { v with active := false } else v := by
      unfold applyVoxelCommand; rw [h]
    have hhit : ∀ v, hitByLaser cmd v ↔
        (cmd.targetIndex1 = some v.y ∧ cmd.targetIndex2 = some v.z) := by
      intro v; unfold hitByLaser; rw [h]
    rw [hmap]
    simp only [hhit]
    exact ite_deactivate_getD _ vs i hi
  · have hmap : applyVoxelCommand vs cmd = vs.map fun v =>
        if cmd.targetIndex1 = some v.x ∧ cmd.targetIndex2 = some v.z then
          { v with active := false } else v := by
      unfold applyVoxelCommand; rw [h]
    have hhit : ∀ v, hitByLaser cmd v ↔
        (cmd.targetIndex1 = some v.x ∧ cmd.targetIndex2 = some v.z) := by
      intro v; unfold hitByLaser; rw [h]
    rw [hmap]
    simp only [hhit]
    exact ite_deactivate_getD _ vs i hi
  · have hmap : applyVoxelCommand vs cmd = vs.map fun v =>
        if cmd.targetIndex1 = some v.x ∧ cmd.targetIndex2 = some v.y then
          { v with active := false } else v := by
      unfold applyVoxelCommand; rw [h]
    have hhit : ∀ v, hitByLaser cmd v ↔
        (cmd.targetIndex1 = some v.x ∧ cmd.targetIndex2 = some v.y) := by
      intro v; unfold hitByLaser; rw [h]
    rw [hmap]
    simp only [hhit]
    exact ite_deactivate_getD _ vs i hi

/-- Witness for C10: `laserZ00` destroys the voxel at `(0,0,0)`. -/
theorem voxelLaser_only_deactivates_targeted_line_witness :
    laserZ00.type = VoxelCommandType.LASER_Z ∧
      0 < ([{ id := 1, val := 1, x := 0, y := 0, z := 0, active := true },
            { id := 2, val := 2, x := 1, y := 0, z := 0, active := true }] : List Voxel).length ∧
      hitByLaser laserZ00
        (([{ id := 1, val := 1, x := 0, y := 0, z := 0, active := true },
           { id := 2, val := 2, x := 1, y := 0, z := 0, active := true }] : List Voxel).getD 0
          default) ∧
      ((applyVoxelCommand
          [{ id := 1, val := 1, x := 0, y := 0, z := 0, active := true },
           { id := 2, val := 2, x := 1, y := 0, z := 0, active := true }] laserZ00).getD 0
        default).active = false :=
  ⟨rfl, by decide, by decide,
   (voxelLaser_only_deactivates_targeted_line
      [{ id := 1, val := 1, x := 0, y := 0, z := 0, active := true },
       { id := 2, val := 2, x := 1, y := 0, z := 0, active := true }]
      laserZ00 (Or.inr (Or.inr rfl)) 0 (by decide)).2.2.2.2.2.2.1 (by decide)⟩

/-- C4 counterexample: the voxel at `(0,0,0)` of the freshly created cube
is present with value `1`, and the user entry `"01"` parses to the
integer `1`, so the claimed parsed-integer rule counts the cell correct —
but the scorer compares strings (`"1" ≠ "01"`) and counts it incorrect
(0 of 27 correct overall, as every other cell is a present voxel with an
empty user entry). -/
theorem voxelScore_parsedInt_rule_cex :
    (createCube.find? fun v => v.x == 0 && v.y == 0 && v.z == 0) =
      some { id := 1, val := 1, x := 0, y := 0, z := 0, active := true } ∧
    (userInput01 (coordKey 0 0 0)).getD "" = "01" ∧
    specParsedInt "01" = some 1 ∧
    cellScore createCube userInput01 0 0 0 = false ∧
    getResultStats createCube userInput01 = (0, 27) := by decide

/-- C4 amended: for a coordinate holding voxel `v`, a present voxel counts
correct iff the user's string is literally the decimal string of its
value (so `"01"` for value `1` is incorrect), and a destroyed voxel
counts correct iff the user's entry is empty or absent — in particular a
numeric entry for a destroyed cell is always incorrect. -/
theorem voxelScore_string_equality_rule (fv : List Voxel)
    (ui : String → Option String) (z y x : Int) (v : Voxel)
    (hfind : (fv.find? fun w => w.x == x && w.y == y && w.z == z) = some v) :
    (v.active = true →
      (cellScore fv ui z y x = true ↔ (ui (coordKey z y x)).getD "" = toString v.val)) ∧
    (v.active = false →
      (cellScore fv ui z y x = true ↔ (ui (coordKey z y x)).getD "" = "")) := by
  have hcs : cellScore fv ui z y x
      = ((if v.active = true then toString v.val else "")
          == (ui (coordKey z y x)).getD "") := by
    simp only [cellScore]
    rw [hfind]
  constructor <;> intro ha
  · rw [hcs, if_pos ha, beq_iff_eq]
    exact eq_comm
  · rw [hcs, if_neg (by rw [ha]; exact Bool.false_ne_true), beq_iff_eq]
    exact eq_comm

/-- Witness for the amended C4: with an empty answer sheet the present
voxel `1` at `(0,0,0)` scores incorrect (its entry is `""`, not `"1"`). -/
theorem voxelScore_string_equality_rule_witness :
    (createCube.find? fun w => w.x == 0 && w.y == 0 && w.z == 0) =
      some { id := 1, val := 1, x := 0, y := 0, z := 0, active := true } ∧
    ({ id := 1, val := 1, x := 0, y := 0, z := 0, active := true } : Voxel).active = true ∧
    (cellScore createCube (fun _ => none) 0 0 0 = true ↔
      ((fun _ => none : String → Option String) (coordKey 0 0 0)).getD ""
        = toString ({ id := 1, val := 1, x := 0, y := 0, z := 0, active := true } : Voxel).val) :=
  ⟨by decide, rfl,
   (voxelScore_string_equality_rule createCube (fun _ => none) 0 0 0
      { id := 1, val := 1, x := 0, y := 0, z := 0, active := true } (by decide)).1 rfl⟩

/-- C2 counterexample: on the random outcome stream that is constantly
`0` (a legal `Math.random()` outcome, `0 ≤ 0 < 1`), `generateGrid`
returns the all-ones grid — the nine cells are independent draws, not a
permutation of `1..9`. -/
theorem generateGrid_not_a_permutation_cex :
    generateGrid (fun _ => (0 : ℚ)) = [[1, 1, 1], [1, 1, 1], [1, 1, 1]] ∧
      (0 : ℚ) ≤ 0 ∧ (0 : ℚ) < 1 ∧
      ¬ (generateGrid (fun _ => (0 : ℚ))).flatten.Nodup := by
  have hg : generateGrid (fun _ => (0 : ℚ)) = [[1, 1, 1], [1, 1, 1], [1, 1, 1]] := by
    norm_num [generateGrid]
  refine ⟨hg, le_refl 0, by norm_num, ?_⟩
  rw [hg]
  decide

/-- C2 amended: for every outcome stream of the random source (each draw
in `[0,1)`), `generateGrid` returns a 3×3 grid each of whose cells lies
between 1 and 9 — but the cells are nine independent draws, so values
may repeat and the grid need not be a permutation of `1..9`. -/
theorem generateGrid_cells_in_range (rng : Nat → ℚ)
    (h : ∀ i, 0 ≤ rng i ∧ rng i < 1) :
    (generateGrid rng).length = 3 ∧
      ∀ row ∈ generateGrid rng, row.length = 3 ∧ ∀ cell ∈ row, 1 ≤ cell ∧ cell ≤ 9 := by
  have key : ∀ i : Nat, 1 ≤ ⌊rng i * 9⌋ + 1 ∧ ⌊rng i * 9⌋ + 1 ≤ 9 := by
    intro i
    obtain ⟨h0, h1⟩ := h i
    have hge : (0 : Int) ≤ ⌊rng i * 9⌋ :=
      Int.le_floor.mpr (by push_cast; nlinarith)
    have hlt : ⌊rng i * 9⌋ < 9 :=
      Int.floor_lt.mpr (by push_cast; nlinarith)
    omega
  refine ⟨rfl, ?_⟩
  intro row hrow
  simp only [generateGrid, List.mem_cons, List.not_mem_nil, or_false] at hrow
  rcases hrow with rfl | rfl | rfl <;> refine ⟨rfl, ?_⟩ <;>
    · intro cell hcell
      simp only [List.mem_cons, List.not_mem_nil, or_false] at hcell
      rcases hcell with rfl | rfl | rfl <;> exact key _

/-- Witness for the amended C2 at the constant stream `1/2`. -/
theorem generateGrid_cells_in_range_witness :
    (∀ i : Nat, 0 ≤ (fun _ => (1 / 2 : ℚ)) i ∧ (fun _ => (1 / 2 : ℚ)) i < 1) ∧
      ((generateGrid (fun _ => (1 / 2 : ℚ))).length = 3 ∧
        ∀ row ∈ generateGrid (fun _ => (1 / 2 : ℚ)),
          row.length = 3 ∧ ∀ cell ∈ row, 1 ≤ cell ∧ cell ≤ 9) :=
  ⟨fun _ => ⟨by norm_num, by norm_num⟩,
   generateGrid_cells_in_range (fun _ => (1 / 2 : ℚ))
     (fun _ => ⟨by norm_num, by norm_num⟩)⟩

theorem gridStates_length (cmds : List GridCommand) :
    ∀ s : Grid, (gridStates s cmds).length = cmds.length := by
  induction cmds with
  | nil => intro s; rfl
  | cons c cs ih => intro s; simp [gridStates, ih]

theorem startGameHistoryAux_map (cmds : List GridCommand) :
    ∀ (s : Grid) (idx : Nat),
      (startGameHistoryAux s cmds idx).map HistoryStep.gridState = gridStates s cmds := by
  induction cmds with
  | nil => intro s idx; rfl
  | cons c cs ih =>
      intro s idx
      simp only [startGameHistoryAux, gridStates, List.map_cons, List.cons.injEq]
      exact ⟨trivial, ih _ _⟩

theorem gridStates_getD_succ (cmds : List GridCommand) :
    ∀ (s : Grid) (i : Nat), i < cmds.length →
      (s :: gridStates s cmds).getD (i + 1) [] =
        applyGridCommand ((s :: gridStates s cmds).getD i []) (cmds.getD i default) := by
  induction cmds with
  | nil => intro s i hi; exact absurd hi (by simp)
  | cons c cs ih =>
      intro s i hi
      cases i with
      | zero => rfl
      | succ j =>
          have hj : j < cs.length := by simpa using hi
          simpa only [gridStates, List.getD_cons_succ] using ih (applyGridCommand s c) j hj

theorem gridStates_foldl (cmds : List GridCommand) :
    ∀ s : Grid, cmds.foldl applyGridCommand s = (s :: gridStates s cmds).getD cmds.length [] := by
  induction cmds with
  | nil => intro s; rfl
  | cons c cs ih =>
      intro s
      simp only [List.foldl_cons, gridStates, List.length_cons, List.getD_cons_succ]
      exact ih (applyGridCommand s c)

theorem startGameHistory_map (initial : Grid) (cmds : List GridCommand) :
    (startGameHistory initial cmds).map HistoryStep.gridState
      = initial :: gridStates initial cmds := by
  simp only [startGameHistory, List.map_cons, List.cons.injEq]
  exact ⟨trivial, startGameHistoryAux_map cmds initial 0⟩

theorem startGameHistory_length (initial : Grid) (cmds : List GridCommand) :
    (startGameHistory initial cmds).length = cmds.length + 1 := by
  have h := congrArg List.length (startGameHistory_map initial cmds)
  simpa [gridStates_length] using h

theorem startGameHistory_getD_gridState (initial : Grid) (cmds : List GridCommand)
    (i : Nat) (hi : i < cmds.length + 1) :
    ((startGameHistory initial cmds).getD i default).gridState
      = (initial :: gridStates initial cmds).getD i [] := by
  rw [← startGameHistory_map]
  exact (getD_map_of_lt HistoryStep.gridState _ i
    (by rw [startGameHistory_length]; exact hi) [] default).symm

theorem dieStates_length (cmds : List DieCommand) :
    ∀ s : DieState, (dieStates s cmds).length = cmds.length := by
  induction cmds with
  | nil => intro s; rfl
  | cons c cs ih => intro s; simp [dieStates, ih]

theorem dieStartGameHistoryAux_map (cmds : List DieCommand) :
    ∀ (s : DieState) (idx : Nat),
      (dieStartGameHistoryAux s cmds idx).map DieHistoryStep.resultState = dieStates s cmds := by
  induction cmds with
  | nil => intro s idx; rfl
  | cons c cs ih =>
      intro s idx
      simp only [dieStartGameHistoryAux, dieStates, List.map_cons, List.cons.injEq]
      exact ⟨trivial, ih _ _⟩

theorem dieStates_getD_succ (cmds : List DieCommand) :
    ∀ (s : DieState) (i : Nat), i < cmds.length →
      (s :: dieStates s cmds).getD (i + 1) INITIAL_DIE =
        applyDieCommand ((s :: dieStates s cmds).getD i INITIAL_DIE)
          (cmds.getD i default).type := by
  induction cmds with
  | nil => intro s i hi; exact absurd hi (by simp)
  | cons c cs ih =>
      intro s i hi
      cases i with
      | zero => rfl
      | succ j =>
          have hj : j < cs.length := by simpa using hi
          simpa only [dieStates, List.getD_cons_succ]
            using ih (applyDieCommand s c.type) j hj

theorem dieStates_foldl (cmds : List DieCommand) :
    ∀ s : DieState,
      cmds.foldl (fun t c => applyDieCommand t c.type) s
        = (s :: dieStates s cmds).getD cmds.length INITIAL_DIE := by
  induction cmds with
  | nil => intro s; rfl
  | cons c cs ih =>
      intro s
      simp only [List.foldl_cons, dieStates, List.length_cons, List.getD_cons_succ]
      exact ih (applyDieCommand s c.type)

theorem dieStartGameHistory_map (initial : DieState) (cmds : List DieCommand) :
    (dieStartGameHistory initial cmds).map DieHistoryStep.resultState
      = initial :: dieStates initial cmds := by
  simp only [dieStartGameHistory, List.map_cons, List.cons.injEq]
  exact ⟨trivial, dieStartGameHistoryAux_map cmds initial 0⟩

theorem dieStartGameHistory_length (initial : DieState) (cmds : List DieCommand) :
    (dieStartGameHistory initial cmds).length = cmds.length + 1 := by
  have h := congrArg List.length (dieStartGameHistory_map initial cmds)
  simpa [dieStates_length] using h

theorem dieStartGameHistory_getD_resultState (initial : DieState) (cmds : List DieCommand)
    (i : Nat) (hi : i < cmds.length + 1) :
    ((dieStartGameHistory initial cmds).getD i default).resultState
      = (initial :: dieStates initial cmds).getD i INITIAL_DIE := by
  rw [← dieStartGameHistory_map]
  exact (getD_map_of_lt DieHistoryStep.resultState _ i
    (by rw [dieStartGameHistory_length]; exact hi) INITIAL_DIE default).symm

/-- C1: for both run drivers (blind-grid and invisible-die `startGame`),
for every initial configuration and every command list, the history has
exactly `cmds.length + 1` entries, entry 0's snapshot is the initial
configuration, entry `i+1`'s snapshot is `applyCommand` of entry `i`'s
snapshot and command `i`, and the final configuration equals the last
entry's snapshot. -/
theorem startGame_history_run_correct :
    (∀ (initial : Grid) (cmds : List GridCommand),
      (startGameHistory initial cmds).length = cmds.length + 1 ∧
      ((startGameHistory initial cmds).getD 0 default).gridState = initial ∧
      (∀ i, i < cmds.length →
        ((startGameHistory initial cmds).getD (i + 1) default).gridState =
          applyGridCommand ((startGameHistory initial cmds).getD i default).gridState
            (cmds.getD i default)) ∧
      startGameFinal initial cmds =
        ((startGameHistory initial cmds).getD cmds.length default).gridState) ∧
    (∀ (initial : DieState) (cmds : List DieCommand),
      (dieStartGameHistory initial cmds).length = cmds.length + 1 ∧
      ((dieStartGameHistory initial cmds).getD 0 default).resultState = initial ∧
      (∀ i, i < cmds.length →
        ((dieStartGameHistory initial cmds).getD (i + 1) default).resultState =
          applyDieCommand ((dieStartGameHistory initial cmds).getD i default).resultState
            (cmds.getD i default).type) ∧
      dieStartGameFinal initial cmds =
        ((dieStartGameHistory initial cmds).getD cmds.length default).resultState) := by
  constructor
  · intro initial cmds
    refine ⟨startGameHistory_length initial cmds, rfl, ?_, ?_⟩
    · intro i hi
      rw [startGameHistory_getD_gridState initial cmds (i + 1) (by omega),
          startGameHistory_getD_gridState initial cmds i (by omega)]
      exact gridStates_getD_succ cmds initial i hi
    · rw [startGameHistory_getD_gridState initial cmds cmds.length (by omega)]
      exact gridStates_foldl cmds initial
  · intro initial cmds
    refine ⟨dieStartGameHistory_length initial cmds, rfl, ?_, ?_⟩
    · intro i hi
      rw [dieStartGameHistory_getD_resultState initial cmds (i + 1) (by omega),
          dieStartGameHistory_getD_resultState initial cmds i (by omega)]
      exact dieStates_getD_succ cmds initial i hi
    · rw [dieStartGameHistory_getD_resultState initial cmds cmds.length (by omega)]
      exact dieStates_foldl cmds initial

/-- Witness for C1: one rotate command on the standard grid; step 1 of
the history is `applyCommand` of step 0's snapshot. -/
theorem startGame_history_run_correct_witness :
    0 < ([{ type := .ROTATE_CW, description := "Rotate 90° Clockwise" }] :
          List GridCommand).length ∧
      ((startGameHistory [[1, 2, 3], [4, 5, 6], [7, 8, 9]]
          [{ type := .ROTATE_CW, description := "Rotate 90° Clockwise" }]).getD 1
        default).gridState =
        applyGridCommand
          ((startGameHistory [[1, 2, 3], [4, 5, 6], [7, 8, 9]]
              [{ type := .ROTATE_CW, description := "Rotate 90° Clockwise" }]).getD 0
            default).gridState
          (([{ type := .ROTATE_CW, description := "Rotate 90° Clockwise" }] :
              List GridCommand).getD 0 default) :=
  ⟨by decide,
   (startGame_history_run_correct.1 [[1, 2, 3], [4, 5, 6], [7, 8, 9]]
      [{ type := .ROTATE_CW, description := "Rotate 90° Clockwise" }]).2.2.1 0 (by decide)⟩

theorem floor_mul_three_nonneg (q : ℚ) (hq : 0 ≤ q) : 0 ≤ ⌊q * 3⌋ :=
  Int.le_floor.mpr (by push_cast; nlinarith)

theorem toNat_inj_of_nonneg {p q : Int} (hp : 0 ≤ p) (hq : 0 ≤ q)
    (h : p.toNat = q.toNat) : p = q := by
  rw [← Int.toNat_of_nonneg hp, ← Int.toNat_of_nonneg hq, h]

/-- On termination, the resampling loop's exit condition has failed: the
final `r2` does not satisfy `r1 = r2 ∧ c1 = c2`. -/
theorem resampleR2_exit_ne (rng : Nat → ℚ) (r1 c1 c2 : Int) :
    ∀ (fuel : Nat) (r2 : Int) (k : Nat) (res : Int × Nat),
      resampleR2 rng r1 c1 c2 fuel r2 k = some res → ¬(r1 = res.1 ∧ c1 = c2) := by
  intro fuel
  induction fuel with
  | zero =>
      intro r2 k res h
      by_cases hc : r1 = r2 ∧ c1 = c2
      · rw [resampleR2, if_pos hc] at h
        exact Option.noConfusion h
      · rw [resampleR2, if_neg hc] at h
        injection h with h2
        cases h2
        exact hc
  | succ fuel ih =>
      intro r2 k res h
      by_cases hc : r1 = r2 ∧ c1 = c2
      · rw [resampleR2, if_pos hc] at h
        exact ih _ _ res h
      · rw [resampleR2, if_neg hc] at h
        injection h with h2
        cases h2
        exact hc

/-- If every random outcome is nonnegative and the initial `r2` is
nonnegative, the resampling loop's final `r2` is nonnegative. -/
theorem resampleR2_nonneg (rng : Nat → ℚ) (hrng : ∀ i, 0 ≤ rng i) (r1 c1 c2 : Int) :
    ∀ (fuel : Nat) (r2 : Int) (k : Nat), 0 ≤ r2 →
      ∀ res, resampleR2 rng r1 c1 c2 fuel r2 k = some res → 0 ≤ res.1 := by
  intro fuel
  induction fuel with
  | zero =>
      intro r2 k h0 res h
      by_cases hc : r1 = r2 ∧ c1 = c2
      · rw [resampleR2, if_pos hc] at h
        exact Option.noConfusion h
      · rw [resampleR2, if_neg hc] at h
        injection h with h2
        cases h2
        exact h0
  | succ fuel ih =>
      intro r2 k h0 res h
      by_cases hc : r1 = r2 ∧ c1 = c2
      · rw [resampleR2, if_pos hc] at h
        exact ih _ _ (floor_mul_three_nonneg _ (hrng k)) res h
      · rw [resampleR2, if_neg hc] at h
        injection h with h2
        cases h2
        exact h0

/-- C9: whenever the command generator terminates (for any nonnegative
outcome stream of the random source), every generated `SWAP` command
targets two distinct cell coordinates: `(r1,c1) ≠ (r2,c2)`. -/
theorem generateRandomCommands_swap_distinct (rng : Nat → ℚ)
    (hrng : ∀ i, 0 ≤ rng i) (fuel : Nat) :
    ∀ (n k : Nat) (cmds : List GridCommand),
      generateRandomCommands rng fuel n k = some cmds →
      ∀ cmd ∈ cmds, cmd.type = .SWAP →
        ∀ a b a2 b2, cmd.r1 = some a → cmd.c1 = some b →
          cmd.r2 = some a2 → cmd.c2 = some b2 → (a, b) ≠ (a2, b2) := by
  intro n
  induction n with
  | zero =>
      intro k cmds h cmd hmem
      rw [generateRandomCommands] at h
      injection h with h2
      subst h2
      exact absurd hmem (List.not_mem_nil cmd)
  | succ n ih =>
      intro k cmds h
      simp only [generateRandomCommands] at h
      by_cases h1 : rng k < 1 / 2
      · rw [if_pos h1] at h
        cases hgen : generateRandomCommands rng fuel n (k + 1) with
        | none => rw [hgen] at h; exact absurd h (by simp)
        | some rest =>
            rw [hgen] at h
            simp only [Option.map_some'] at h
            injection h with h2
            subst h2
            intro cmd hmem htype
            rcases List.mem_cons.mp hmem with rfl | hmem2
            · exact GridCommandType.noConfusion htype
            · exact ih (k + 1) rest hgen cmd hmem2 htype
      · rw [if_neg h1] at h
        by_cases h2 : rng k < 4 / 5
        · rw [if_pos h2] at h
          cases hrs : resampleR2 rng ⌊rng (k + 1) * 3⌋ ⌊rng (k + 2) * 3⌋
              ⌊rng (k + 4) * 3⌋ fuel ⌊rng (k + 3) * 3⌋ (k + 5) with
          | none => simp only [hrs] at h; exact absurd h (by simp)
          | some res =>
              obtain ⟨r2f, k2⟩ := res
              simp only [hrs] at h
              cases hgen : generateRandomCommands rng fuel n k2 with
              | none => simp only [hgen, Option.map_none'] at h; exact absurd h (by simp)
              | some rest =>
                  rw [hgen] at h
                  simp only [Option.map_some'] at h
                  injection h with h3
                  subst h3
                  intro cmd hmem htype a b a2 b2 ha hb ha2 hb2
                  rcases List.mem_cons.mp hmem with rfl | hmem2
                  · injection ha with ha
                    injection hb with hb
                    injection ha2 with ha2
                    injection hb2 with hb2
                    subst ha hb ha2 hb2
                    intro heq
                    rw [Prod.mk.injEq] at heq
                    obtain ⟨e1, e2⟩ := heq
                    have hn1 : (0 : Int) ≤ ⌊rng (k + 1) * 3⌋ :=
                      floor_mul_three_nonneg _ (hrng (k + 1))
                    have hn2 : (0 : Int) ≤ ⌊rng (k + 2) * 3⌋ :=
                      floor_mul_three_nonneg _ (hrng (k + 2))
                    have hn3 : (0 : Int) ≤ ⌊rng (k + 4) * 3⌋ :=
                      floor_mul_three_nonneg _ (hrng (k + 4))
                    have hn4 : (0 : Int) ≤ r2f :=
                      resampleR2_nonneg rng hrng _ _ _ fuel _ (k + 5)
                        (floor_mul_three_nonneg _ (hrng (k + 3))) _ hrs
                    exact resampleR2_exit_ne rng _ _ _ fuel _ _ _ hrs
                      ⟨toNat_inj_of_nonneg hn1 hn4 e1, toNat_inj_of_nonneg hn2 hn3 e2⟩
                  · exact ih k2 rest hgen cmd hmem2 htype a b a2 b2 ha hb ha2 hb2
        · rw [if_neg h2] at h
          cases hgen : generateRandomCommands rng fuel n (k + 2) with
          | none => rw [hgen] at h; exact absurd h (by simp)
          | some rest =>
              rw [hgen] at h
              simp only [Option.map_some'] at h
              injection h with h2
              subst h2
              intro cmd hmem htype
              rcases List.mem_cons.mp hmem with rfl | hmem2
              · exact GridCommandType.noConfusion htype
              · exact ih (k + 2) rest hgen cmd hmem2 htype

/-- Witness for C9: on `rngSwapExample` the generator yields one swap,
of cell `(0,0)` with cell `(1,0)`, and those coordinates are distinct. -/
theorem generateRandomCommands_swap_distinct_witness :
    (∀ i, 0 ≤ rngSwapExample i) ∧
      generateRandomCommands rngSwapExample 1 1 0 = some [swapCmd01] ∧
      swapCmd01.type = GridCommandType.SWAP ∧
      ((0 : Nat), (0 : Nat)) ≠ ((1 : Nat), (0 : Nat)) := by
  have hnn : ∀ i, 0 ≤ rngSwapExample i := by
    intro i
    unfold rngSwapExample
    split_ifs <;> norm_num
  have f1 : ⌊rngSwapExample 1 * 3⌋ = (0 : Int) := by norm_num [rngSwapExample]
  have f2 : ⌊rngSwapExample 2 * 3⌋ = (0 : Int) := by norm_num [rngSwapExample]
  have f3 : ⌊rngSwapExample 3 * 3⌋ = (1 : Int) := by
    norm_num [rngSwapExample, Int.floor_eq_iff]
  have f4 : ⌊rngSwapExample 4 * 3⌋ = (0 : Int) := by norm_num [rngSwapExample]
  have e1 : ¬(rngSwapExample 0 < 1 / 2) := by norm_num [rngSwapExample]
  have e2 : rngSwapExample 0 < 4 / 5 := by norm_num [rngSwapExample]
  have hgen : generateRandomCommands rngSwapExample 1 1 0 = some [swapCmd01] := by
    simp only [generateRandomCommands, e1, e2, if_false, if_true, f1, f2, f3, f4,
      resampleR2, swapCmd01]
    norm_num
  refine ⟨hnn, hgen, rfl, ?_⟩
  exact generateRandomCommands_swap_distinct rngSwapExample hnn 1 1 0 [swapCmd01] hgen
    swapCmd01 (List.mem_singleton_self _) rfl 0 0 1 0 rfl rfl rfl rfl
